import Mathlib

/-!
Verification of the SORA-2 video generator wrapper
(`src/sora_video_generator.py`).

The source is a thin client around a remote video-generation API: it submits
a job, polls status on a fixed 10-second cadence until one of the terminal
statuses `completed` / `failed` / `cancelled` is observed, and on `completed`
downloads the content (variant `"video"`) and writes it to
`videos/sora2_video_<timestamp>.mp4`.

The embedding below models the remote service as a scripted oracle
(`Service`): the responses of the create / retrieve / download / file-write
calls, each of which may raise (modelled as `Except.error`).  The two public
run functions are translated as fuel-indexed functions that return the
Python result (a path string, or the `False` marker) together with the trace
of observable events (calls issued, statuses observed, file operations).
`none` means the unbounded poll loop has not yet terminated within the given
fuel (the source loop has no bound).
-/

/-- A job object as returned by `client.videos.create` / `client.videos.retrieve`:
an opaque identifier plus a status string. -/
structure Video where
  id : String
  status : String
deriving DecidableEq, Repr

/-- The parameters handed to `client.videos.create` in the source:
`model="sora-2"`, the prompt, size, seconds, and (for image-to-video) the
`input_reference` image path opened in binary mode. -/
structure CreateParams where
  model : String
  prompt : String
  size : String
  seconds : Nat
  input_reference : Option String
deriving DecidableEq, Repr

/-- Observable events of a run, in program order. -/
inductive Ev where
  | createCall (params : CreateParams)
  | statusObserved (s : String)
  | sleepEv (duration : Nat)
  | retrieveCall (id : String)
  | downloadCall (id : String) (variant : String)
  | fileOpen (p : String)
  | fileClose (p : String)
  | fileWrite (p : String) (bytes : List Nat)
deriving DecidableEq, Repr

/-- The Python functions return either a local file path (`str`) or `False`.
`noResult` is the absence-of-result marker. -/
inductive GenerationResult where
  | path (p : String)
  | noResult
deriving DecidableEq, Repr

/-- A broken-down wall-clock instant as produced by `datetime.datetime.now()`,
at one-second resolution (the sub-second part is carried separately where
needed). -/
structure DateTime where
  year : Nat
  month : Nat
  day : Nat
  hour : Nat
  minute : Nat
  second : Nat
deriving DecidableEq, Repr

/-- A scripted remote service / environment: the outcome of each external
call the source makes.  `Except.error` models the call raising an exception.
`retrieve` is indexed by the id argument and by how many retrieve calls have
already been issued, so any scripted response sequence is expressible.
`now` is the clock reading used to build the output file name. -/
structure Service where
  create : Except String Video
  retrieve : String → Nat → Except String Video
  download : String → String → Except String (List Nat)
  writeFile : String → List Nat → Except String Unit
  openImage : String → Except String Unit
  now : DateTime

/-- The loop guard `video.status not in ["completed", "failed", "cancelled"]`:
these three strings are the terminal statuses. -/
def terminalStatus (s : String) : Bool :=
  s == "completed" || s == "failed" || s == "cancelled"

/-- The output directory `VIDEO_DIR = "videos"` from the source. -/
def VIDEO_DIR : String := "videos"

/-- Two-digit zero-padded decimal field of `strftime` (`%d`, `%H`, `%M`, `%S`). -/
def pad2 (n : Nat) : List Char :=
  [Nat.digitChar (n / 10), Nat.digitChar (n % 10)]

/-- Four-digit year field (`%Y`) for years in 1000..9999. -/
def pad4 (n : Nat) : List Char :=
  [Nat.digitChar (n / 1000), Nat.digitChar (n / 100 % 10),
   Nat.digitChar (n / 10 % 10), Nat.digitChar (n % 10)]

/-- The abbreviated month name (`%b`). -/
def monthAbbrev : Nat → List Char
  | 1 => ['J', 'a', 'n']
  | 2 => ['F', 'e', 'b']
  | 3 => ['M', 'a', 'r']
  | 4 => ['A', 'p', 'r']
  | 5 => ['M', 'a', 'y']
  | 6 => ['J', 'u', 'n']
  | 7 => ['J', 'u', 'l']
  | 8 => ['A', 'u', 'g']
  | 9 => ['S', 'e', 'p']
  | 10 => ['O', 'c', 't']
  | 11 => ['N', 'o', 'v']
  | 12 => ['D', 'e', 'c']
  | _ => []

/-- The timestamp `datetime.datetime.now().strftime('%d%b%Y_%H%M%S')` — e.g.
`15Mar2025_143022`. -/
def fmtTimestamp (d : DateTime) : String :=
  String.mk (pad2 d.day ++ (monthAbbrev d.month ++ (pad4 d.year ++ (['_'] ++
    (pad2 d.hour ++ (pad2 d.minute ++ pad2 d.second))))))

/-- The output path `os.path.join(VIDEO_DIR, f"sora2_video_(timestamp).mp4")`. -/
def outPath (d : DateTime) : String :=
  VIDEO_DIR ++ "/" ++ (("sora2_video_" ++ fmtTimestamp d) ++ ".mp4")

/-- The `while video.status not in [...]` poll loop: sleep 10, re-fetch the
job by its current id, repeat.  `k` counts retrieve calls already issued
(the script index); `fuel` bounds the number of iterations modelled
(`none` = still looping).  A raising retrieve call ends the loop with
`Except.error` (caught by the caller's `try`). -/
def pollLoop (svc : Service) : Nat → Video → Nat → Option (Except String Video × List Ev)
  | 0, v, _ =>
    if terminalStatus v.status then some (Except.ok v, []) else none
  | fuel + 1, v, k =>
    if terminalStatus v.status then some (Except.ok v, [])
    else
      match svc.retrieve v.id k with
      | Except.error e => some (Except.error e, [Ev.sleepEv 10, Ev.retrieveCall v.id])
      | Except.ok v2 =>
        match pollLoop svc fuel v2 (k + 1) with
        | none => none
        | some (res, evs) =>
          some (res, Ev.sleepEv 10 :: Ev.retrieveCall v.id :: Ev.statusObserved v2.status :: evs)

/-- Result of a run: the Python return value plus the event trace. -/
abbrev RunOutcome := Option (GenerationResult × List Ev)

/-- The tail of both run functions after a successful create: poll to a
terminal status, then on `completed` download variant `"video"` and write
the bytes to the timestamped path; on `failed` / `cancelled` return the
marker.  Any raising call is caught by the enclosing `try` and yields the
marker. -/
def finishRun (svc : Service) (v : Video) (fuel : Nat) (pre : List Ev) : RunOutcome :=
  match pollLoop svc fuel v 0 with
  | none => none
  | some (Except.error _, pevs) => some (GenerationResult.noResult, pre ++ pevs)
  | some (Except.ok vf, pevs) =>
    if vf.status = "completed" then
      match svc.download vf.id "video" with
      | Except.error _ =>
        some (GenerationResult.noResult,
          pre ++ pevs ++ [Ev.downloadCall vf.id "video"])
      | Except.ok bs =>
        let pth := outPath svc.now
        match svc.writeFile pth bs with
        | Except.error _ =>
          some (GenerationResult.noResult,
            pre ++ pevs ++ [Ev.downloadCall vf.id "video"])
        | Except.ok _ =>
          some (GenerationResult.path pth,
            pre ++ pevs ++ [Ev.downloadCall vf.id "video", Ev.fileWrite pth bs])
    else
      some (GenerationResult.noResult, pre ++ pevs)

/-- Function `text_to_video_sora2(prompt, size, seconds)`: create the job from text,
then poll / download / write.  A raising create call is caught and yields
the marker. -/
def text_to_video_sora2 (svc : Service) (prompt : String) (size : String)
    (seconds : Nat) (fuel : Nat) : RunOutcome :=
  let params : CreateParams := ⟨"sora-2", prompt, size, seconds, none⟩
  match svc.create with
  | Except.error _ => some (GenerationResult.noResult, [Ev.createCall params])
  | Except.ok v =>
    finishRun svc v fuel [Ev.createCall params, Ev.statusObserved v.status]

/-- Function `image_to_video_sora2(prompt, image_file, size, seconds)`: open the
reference image in binary mode with a `with` block scoped to the create
call (the file is closed when the block exits, whether the call returns or
raises), then poll / download / write exactly as the text variant. -/
def image_to_video_sora2 (svc : Service) (prompt : String) (image_file : String)
    (size : String) (seconds : Nat) (fuel : Nat) : RunOutcome :=
  match svc.openImage image_file with
  | Except.error _ => some (GenerationResult.noResult, [])
  | Except.ok _ =>
    let params : CreateParams := ⟨"sora-2", prompt, size, seconds, some image_file⟩
    match svc.create with
    | Except.error _ =>
      some (GenerationResult.noResult,
        [Ev.fileOpen image_file, Ev.createCall params, Ev.fileClose image_file])
    | Except.ok v =>
      finishRun svc v fuel
        [Ev.fileOpen image_file, Ev.createCall params, Ev.fileClose image_file,
         Ev.statusObserved v.status]

/-- Model of `os.makedirs(path, exist_ok)` over a filesystem given as the set of
existing directories: raises `FileExistsError` when the directory exists
and `exist_ok` is false, otherwise succeeds (creating it if absent). -/
def makedirs (fs : List String) (d : String) (exist_ok : Bool) :
    Except String (List String) :=
  if d ∈ fs then
    if exist_ok then Except.ok fs else Except.error "FileExistsError"
  else Except.ok (d :: fs)

/-! ### Trace predicates -/

/-- Is this event a status observation? -/
def isStatusObserved : Ev → Bool
  | Ev.statusObserved _ => true
  | _ => false

/-- Is this event a download call? -/
def isDownloadCall : Ev → Bool
  | Ev.downloadCall _ _ => true
  | _ => false

/-- Is this event a file write? -/
def isFileWrite : Ev → Bool
  | Ev.fileWrite _ _ => true
  | _ => false

/-- Is this event an open or close of the reference image? -/
def isOpenOrClose : Ev → Bool
  | Ev.fileOpen _ => true
  | Ev.fileClose _ => true
  | _ => false

/-- Events the poll loop may emit. -/
def isPollEv : Ev → Bool
  | Ev.sleepEv _ => true
  | Ev.retrieveCall _ => true
  | Ev.statusObserved _ => true
  | _ => false

/-- Number of status fetches in a trace. -/
def statusCount (evs : List Ev) : Nat := (evs.filter isStatusObserved).length

/-- No download call in the trace. -/
def downloadFree (evs : List Ev) : Bool := evs.all fun e => !isDownloadCall e

/-- No file write in the trace. -/
def writeFree (evs : List Ev) : Bool := evs.all fun e => !isFileWrite e

/-- The last status observed after processing the trace, starting from `l`. -/
def updLast (l : Option String) : List Ev → Option String
  | [] => l
  | Ev.statusObserved s :: rest => updLast (some s) rest
  | _ :: rest => updLast l rest

/-- The last status observed in a trace. -/
def lastStatus (evs : List Ev) : Option String := updLast none evs

/-- Events other than the create call and the image open/close surrounding
it: the part of a trace common to both run functions. -/
def isPostCreateEv : Ev → Bool
  | Ev.createCall _ => false
  | Ev.fileOpen _ => false
  | Ev.fileClose _ => false
  | _ => true

/-- A trace with the create call and image open/close erased. -/
def eraseCreate (evs : List Ev) : List Ev := evs.filter isPostCreateEv

/-! ### The scripted service used for the polling-count property -/

/-- A service scripted by a status sequence `s`: the create call returns
status `s 0`, the `k`-th retrieve call returns status `s (k+1)`, download
and write succeed. -/
def scriptSvc (s : Nat → String) (d : DateTime) : Service where
  create := Except.ok ⟨"vid_1", s 0⟩
  retrieve := fun _ k => Except.ok ⟨"vid_1", s (k + 1)⟩
  download := fun _ _ => Except.ok [70, 65, 75, 69]
  writeFile := fun _ _ => Except.ok ()
  openImage := fun _ => Except.ok ()
  now := d

/-- A concrete scripted service whose create call raises. -/
def svcCreateFails : Service where
  create := Except.error "boom"
  retrieve := fun _ _ => Except.error "boom"
  download := fun _ _ => Except.error "boom"
  writeFile := fun _ _ => Except.error "boom"
  openImage := fun _ => Except.ok ()
  now := ⟨2025, 3, 15, 14, 30, 22⟩

/-- Field ranges of a calendar timestamp as produced by the clock (years
restricted to four digits, the representable range of the `%Y` field used
here). -/
def validDateTime (d : DateTime) : Prop :=
  1000 ≤ d.year ∧ d.year ≤ 9999 ∧ 1 ≤ d.month ∧ d.month ≤ 12 ∧
    1 ≤ d.day ∧ d.day ≤ 31 ∧ d.hour < 24 ∧ d.minute < 60 ∧ d.second < 60

/-- Days since 1970-01-01 of a civil date (standard civil-from-days
inverse; used only to measure distances between instants). -/
def daysFromCivil (d : DateTime) : Int :=
  let y : Int := if d.month ≤ 2 then (d.year : Int) - 1 else (d.year : Int)
  let m : Int := (d.month : Int)
  let era : Int := (if 0 ≤ y then y else y - 399) / 400
  let yoe : Int := y - era * 400
  let doy : Int := (153 * (if 2 < m then m - 3 else m + 9) + 2) / 5 + (d.day : Int) - 1
  let doe : Int := yoe * 365 + yoe / 4 - yoe / 100 + doy
  era * 146097 + doe - 719468

/-- A wall-clock instant in milliseconds: the second-resolution timestamp
`d` plus a sub-second part `ms < 1000`. -/
def toMillis (d : DateTime) (ms : Nat) : Int :=
  (daysFromCivil d * 86400 + (d.hour : Int) * 3600 + (d.minute : Int) * 60 +
    (d.second : Int)) * 1000 + (ms : Int)

/-! ### Structural lemmas about the poll loop and traces -/

theorem updLast_append (l : Option String) (xs ys : List Ev) :
    updLast l (xs ++ ys) = updLast (updLast l xs) ys := by
  induction xs generalizing l with
  | nil => rfl
  | cons e xs ih => cases e <;> simp [updLast, ih]

theorem isPollEv_not_other (e : Ev) (h : isPollEv e = true) :
    isDownloadCall e = false ∧ isFileWrite e = false ∧ isOpenOrClose e = false := by
  cases e <;> simp_all [isPollEv, isDownloadCall, isFileWrite, isOpenOrClose]

theorem pollLoop_ok (svc : Service) (fuel : Nat) :
    ∀ (v : Video) (k : Nat) (vf : Video) (evs : List Ev),
      pollLoop svc fuel v k = some (Except.ok vf, evs) →
      terminalStatus vf.status = true ∧
        updLast (some v.status) evs = some vf.status ∧
        evs.all isPollEv = true := by
  induction fuel with
  | zero =>
    intro v k vf evs h
    by_cases ht : terminalStatus v.status
    · simp [pollLoop, ht] at h
      obtain ⟨h1, h2⟩ := h
      subst h1; subst h2
      simp [updLast, ht]
    · simp [pollLoop, ht] at h
  | succ fuel ih =>
    intro v k vf evs h
    by_cases ht : terminalStatus v.status
    · simp [pollLoop, ht] at h
      obtain ⟨h1, h2⟩ := h
      subst h1; subst h2
      simp [updLast, ht]
    · simp only [pollLoop, ht, if_false, Bool.false_eq_true] at h
      cases hr : svc.retrieve v.id k with
      | error e =>
        rw [hr] at h
        simp at h
      | ok v2 =>
        rw [hr] at h
        dsimp only at h
        cases hp : pollLoop svc fuel v2 (k + 1) with
        | none => rw [hp] at h; simp at h
        | some p =>
          obtain ⟨res, evs2⟩ := p
          rw [hp] at h
          dsimp only at h
          cases res with
          | error e => simp at h
          | ok vf2 =>
            simp only [Option.some.injEq, Prod.mk.injEq, Except.ok.injEq] at h
            obtain ⟨h1, h2⟩ := h
            obtain ⟨g1, g2, g3⟩ := ih v2 (k + 1) vf2 evs2 hp
            subst h2
            rw [← h1]
            refine ⟨g1, ?_, ?_⟩
            · simp [updLast, g2]
            · simp [List.all_cons, isPollEv, g3]

theorem pollLoop_error (svc : Service) (fuel : Nat) :
    ∀ (v : Video) (k : Nat) (e : String) (evs : List Ev),
      pollLoop svc fuel v k = some (Except.error e, evs) →
      (∃ t, updLast (some v.status) evs = some t ∧ terminalStatus t = false) ∧
        evs.all isPollEv = true := by
  induction fuel with
  | zero =>
    intro v k e evs h
    by_cases ht : terminalStatus v.status <;> simp [pollLoop, ht] at h
  | succ fuel ih =>
    intro v k e evs h
    by_cases ht : terminalStatus v.status
    · simp [pollLoop, ht] at h
    · simp only [pollLoop, ht, if_false, Bool.false_eq_true] at h
      cases hr : svc.retrieve v.id k with
      | error e2 =>
        rw [hr] at h
        simp only [Option.some.injEq, Prod.mk.injEq, Except.error.injEq] at h
        obtain ⟨h1, h2⟩ := h
        subst h2
        refine ⟨⟨v.status, by simp [updLast], by simpa using ht⟩, ?_⟩
        simp [List.all_cons, isPollEv]
      | ok v2 =>
        rw [hr] at h
        dsimp only at h
        cases hp : pollLoop svc fuel v2 (k + 1) with
        | none => rw [hp] at h; simp at h
        | some p =>
          obtain ⟨res, evs2⟩ := p
          rw [hp] at h
          dsimp only at h
          cases res with
          | ok vf2 => simp at h
          | error e2 =>
            simp only [Option.some.injEq, Prod.mk.injEq, Except.error.injEq] at h
            obtain ⟨h1, h2⟩ := h
            obtain ⟨⟨t, g1, g2⟩, g3⟩ := ih v2 (k + 1) e2 evs2 hp
            subst h2
            refine ⟨⟨t, ?_, g2⟩, ?_⟩
            · simp [updLast, g1]
            · simp [List.all_cons, isPollEv, g3]

/-- Exhaustive description of the five ways `finishRun` can produce a
result: a raising retrieve, a `failed`/`cancelled` terminal status, a
raising download, a raising file write, and the successful write. -/
theorem finishRun_cases (svc : Service) (v : Video) (fuel : Nat) (pre : List Ev)
    (r : GenerationResult) (evs : List Ev)
    (h : finishRun svc v fuel pre = some (r, evs)) :
    (∃ e pevs, pollLoop svc fuel v 0 = some (Except.error e, pevs) ∧
      r = GenerationResult.noResult ∧ evs = pre ++ pevs) ∨
    (∃ vf pevs, pollLoop svc fuel v 0 = some (Except.ok vf, pevs) ∧
      vf.status ≠ "completed" ∧ r = GenerationResult.noResult ∧ evs = pre ++ pevs) ∨
    (∃ vf pevs e, pollLoop svc fuel v 0 = some (Except.ok vf, pevs) ∧
      vf.status = "completed" ∧ svc.download vf.id "video" = Except.error e ∧
      r = GenerationResult.noResult ∧
      evs = pre ++ pevs ++ [Ev.downloadCall vf.id "video"]) ∨
    (∃ vf pevs bs e, pollLoop svc fuel v 0 = some (Except.ok vf, pevs) ∧
      vf.status = "completed" ∧ svc.download vf.id "video" = Except.ok bs ∧
      svc.writeFile (outPath svc.now) bs = Except.error e ∧
      r = GenerationResult.noResult ∧
      evs = pre ++ pevs ++ [Ev.downloadCall vf.id "video"]) ∨
    (∃ vf pevs bs, pollLoop svc fuel v 0 = some (Except.ok vf, pevs) ∧
      vf.status = "completed" ∧ svc.download vf.id "video" = Except.ok bs ∧
      svc.writeFile (outPath svc.now) bs = Except.ok () ∧
      r = GenerationResult.path (outPath svc.now) ∧
      evs = pre ++ pevs ++
        [Ev.downloadCall vf.id "video", Ev.fileWrite (outPath svc.now) bs]) := by
  unfold finishRun at h
  cases hp : pollLoop svc fuel v 0 with
  | none => rw [hp] at h; simp at h
  | some p =>
    obtain ⟨res, pevs⟩ := p
    rw [hp] at h
    cases res with
    | error e =>
      simp only [Option.some.injEq, Prod.mk.injEq] at h
      exact Or.inl ⟨e, pevs, rfl, h.1.symm, h.2.symm⟩
    | ok vf =>
      simp only [] at h
      by_cases hc : vf.status = "completed"
      · rw [if_pos hc] at h
        cases hd : svc.download vf.id "video" with
        | error e =>
          rw [hd] at h
          simp only [Option.some.injEq, Prod.mk.injEq] at h
          exact Or.inr (Or.inr (Or.inl ⟨vf, pevs, e, rfl, hc, hd, h.1.symm, h.2.symm⟩))
        | ok bs =>
          rw [hd] at h
          simp only [] at h
          cases hw : svc.writeFile (outPath svc.now) bs with
          | error e =>
            rw [hw] at h
            simp only [Option.some.injEq, Prod.mk.injEq] at h
            exact Or.inr (Or.inr (Or.inr (Or.inl
              ⟨vf, pevs, bs, e, rfl, hc, hd, hw, h.1.symm, h.2.symm⟩)))
          | ok u =>
            rw [hw] at h
            simp only [Option.some.injEq, Prod.mk.injEq] at h
            exact Or.inr (Or.inr (Or.inr (Or.inr
              ⟨vf, pevs, bs, rfl, hc, hd, hw, h.1.symm, h.2.symm⟩)))
      · rw [if_neg hc] at h
        simp only [Option.some.injEq, Prod.mk.injEq] at h
        exact Or.inr (Or.inl ⟨vf, pevs, rfl, hc, h.1.symm, h.2.symm⟩)

/-- The result of `finishRun` is the marker or the timestamped path. -/
theorem finishRun_result (svc : Service) (v : Video) (fuel : Nat) (pre : List Ev)
    (r : GenerationResult) (evs : List Ev)
    (h : finishRun svc v fuel pre = some (r, evs)) :
    r = GenerationResult.noResult ∨ r = GenerationResult.path (outPath svc.now) := by
  rcases finishRun_cases svc v fuel pre r evs h with
    ⟨_, _, _, hr, _⟩ | ⟨_, _, _, _, hr, _⟩ | ⟨_, _, _, _, _, _, hr, _⟩ |
    ⟨_, _, _, _, _, _, _, _, hr, _⟩ | ⟨_, _, _, _, _, _, _, hr, _⟩
  · exact Or.inl hr
  · exact Or.inl hr
  · exact Or.inl hr
  · exact Or.inl hr
  · exact Or.inr hr

/-- C1: for every prompt, size and seconds, and for every scripted behaviour
of the remote service (any call may raise), whenever either public run
function returns, its value is a path under the output directory ending in
`.mp4`, or the absence-of-result marker; the return type of the embedding
has no other variant and no propagated exception. -/
theorem runs_return_mp4_path_or_marker (svc : Service)
    (prompt size image_file : String) (seconds fuel : Nat) :
    (∀ r evs, text_to_video_sora2 svc prompt size seconds fuel = some (r, evs) →
      (∃ mid, r = GenerationResult.path (VIDEO_DIR ++ "/" ++ (mid ++ ".mp4"))) ∨
        r = GenerationResult.noResult) ∧
    (∀ r evs, image_to_video_sora2 svc prompt image_file size seconds fuel = some (r, evs) →
      (∃ mid, r = GenerationResult.path (VIDEO_DIR ++ "/" ++ (mid ++ ".mp4"))) ∨
        r = GenerationResult.noResult) := by
  constructor
  · intro r evs h
    unfold text_to_video_sora2 at h
    cases hc : svc.create with
    | error e =>
      rw [hc] at h
      simp only [Option.some.injEq, Prod.mk.injEq] at h
      exact Or.inr h.1.symm
    | ok v =>
      rw [hc] at h
      rcases finishRun_result svc v fuel _ r evs h with h1 | h1
      · exact Or.inr h1
      · exact Or.inl ⟨"sora2_video_" ++ fmtTimestamp svc.now, by rw [h1]; rfl⟩
  · intro r evs h
    unfold image_to_video_sora2 at h
    cases ho : svc.openImage image_file with
    | error e =>
      rw [ho] at h
      simp only [Option.some.injEq, Prod.mk.injEq] at h
      exact Or.inr h.1.symm
    | ok u =>
      rw [ho] at h
      cases hc : svc.create with
      | error e =>
        rw [hc] at h
        simp only [Option.some.injEq, Prod.mk.injEq] at h
        exact Or.inr h.1.symm
      | ok v =>
        rw [hc] at h
        rcases finishRun_result svc v fuel _ r evs h with h1 | h1
        · exact Or.inr h1
        · exact Or.inl ⟨"sora2_video_" ++ fmtTimestamp svc.now, by rw [h1]; rfl⟩

/-- C6: when the remote create call raises, both run functions return the
absence marker and their traces contain no file write. -/
theorem create_raises_yields_marker_no_write (svc : Service)
    (prompt size image_file : String) (seconds fuel : Nat) (err : String)
    (hc : svc.create = Except.error err) :
    (∃ evs, text_to_video_sora2 svc prompt size seconds fuel =
        some (GenerationResult.noResult, evs) ∧ writeFree evs = true) ∧
    (∀ r evs, image_to_video_sora2 svc prompt image_file size seconds fuel =
        some (r, evs) → r = GenerationResult.noResult ∧ writeFree evs = true) := by
  constructor
  · refine ⟨[Ev.createCall ⟨"sora-2", prompt, size, seconds, none⟩], ?_, ?_⟩
    · unfold text_to_video_sora2
      rw [hc]
    · simp [writeFree, isFileWrite]
  · intro r evs h
    unfold image_to_video_sora2 at h
    cases ho : svc.openImage image_file with
    | error e =>
      rw [ho] at h
      simp only [Option.some.injEq, Prod.mk.injEq] at h
      exact ⟨h.1.symm, by rw [← h.2]; rfl⟩
    | ok u =>
      rw [ho] at h
      rw [hc] at h
      simp only [Option.some.injEq, Prod.mk.injEq] at h
      refine ⟨h.1.symm, ?_⟩
      rw [← h.2]
      simp [writeFree, isFileWrite]

/-- C8: `os.makedirs(VIDEO_DIR, exist_ok=True)` is idempotent: it succeeds
on any filesystem, and succeeds again (as a no-op) on the resulting one. -/
theorem makedirs_video_dir_idempotent (fs : List String) :
    ∃ fs2, makedirs fs VIDEO_DIR true = Except.ok fs2 ∧
      makedirs fs2 VIDEO_DIR true = Except.ok fs2 := by
  unfold makedirs VIDEO_DIR
  by_cases hm : "videos" ∈ fs
  · exact ⟨fs, by simp [hm], by simp [hm]⟩
  · exact ⟨"videos" :: fs, by simp [hm], by simp⟩

/-- Witness for C1 at a concrete scripted service that completes on the
first poll. -/
theorem runs_return_mp4_path_or_marker_witness :
    (∃ mid, GenerationResult.path "videos/sora2_video_15Mar2025_143022.mp4" =
        GenerationResult.path (VIDEO_DIR ++ "/" ++ (mid ++ ".mp4"))) ∨
      GenerationResult.path "videos/sora2_video_15Mar2025_143022.mp4" =
        GenerationResult.noResult :=
  (runs_return_mp4_path_or_marker
      (scriptSvc (fun _ => "completed") ⟨2025, 3, 15, 14, 30, 22⟩)
      "A dog running on a beach" "1280x720" "img.png" 8 0).1
    (GenerationResult.path "videos/sora2_video_15Mar2025_143022.mp4")
    [Ev.createCall ⟨"sora-2", "A dog running on a beach", "1280x720", 8, none⟩,
     Ev.statusObserved "completed",
     Ev.downloadCall "vid_1" "video",
     Ev.fileWrite "videos/sora2_video_15Mar2025_143022.mp4" [70, 65, 75, 69]]
    (by decide)

/-- Witness for C6 at a concrete scripted service whose create call raises. -/
theorem create_raises_yields_marker_no_write_witness :
    (∃ evs, text_to_video_sora2 svcCreateFails "p" "1280x720" 8 0 =
        some (GenerationResult.noResult, evs) ∧ writeFree evs = true) ∧
    (GenerationResult.noResult = GenerationResult.noResult ∧
      writeFree [Ev.fileOpen "img.png",
        Ev.createCall ⟨"sora-2", "p", "1280x720", 8, some "img.png"⟩,
        Ev.fileClose "img.png"] = true) :=
  ⟨(create_raises_yields_marker_no_write svcCreateFails "p" "1280x720" "img.png" 8 0
      "boom" rfl).1,
   (create_raises_yields_marker_no_write svcCreateFails "p" "1280x720" "img.png" 8 0
      "boom" rfl).2 GenerationResult.noResult
     [Ev.fileOpen "img.png",
      Ev.createCall ⟨"sora-2", "p", "1280x720", 8, some "img.png"⟩,
      Ev.fileClose "img.png"] (by decide)⟩

/-- Poll-loop events contain no download call and no file write. -/
theorem pollEvs_free (evs : List Ev) (h : evs.all isPollEv = true) :
    downloadFree evs = true ∧ writeFree evs = true := by
  simp only [downloadFree, writeFree, List.all_eq_true] at *
  constructor <;> intro e he
  · have := (isPollEv_not_other e (h e he)).1
    simp [this]
  · have := (isPollEv_not_other e (h e he)).2.1
    simp [this]

theorem downloadFree_append (xs ys : List Ev) :
    downloadFree (xs ++ ys) = (downloadFree xs && downloadFree ys) := by
  simp [downloadFree, List.all_append]

theorem writeFree_append (xs ys : List Ev) :
    writeFree (xs ++ ys) = (writeFree xs && writeFree ys) := by
  simp [writeFree, List.all_append]

/-- If the last status observed in the trace of a completed `finishRun` is
`failed` or `cancelled`, the result is the marker and the trace contains
neither a download call nor a file write. -/
theorem finishRun_failed_cancelled (svc : Service) (v : Video) (fuel : Nat)
    (pre : List Ev) (r : GenerationResult) (evs : List Ev)
    (h : finishRun svc v fuel pre = some (r, evs))
    (hl : updLast none pre = some v.status)
    (hdf : downloadFree pre = true) (hwf : writeFree pre = true)
    (hfail : lastStatus evs = some "failed" ∨ lastStatus evs = some "cancelled") :
    r = GenerationResult.noResult ∧ downloadFree evs = true ∧ writeFree evs = true := by
  rcases finishRun_cases svc v fuel pre r evs h with
    ⟨e, pevs, hp, hr, he⟩ | ⟨vf, pevs, hp, hs, hr, he⟩ |
    ⟨vf, pevs, e, hp, hs, hd, hr, he⟩ | ⟨vf, pevs, bs, e, hp, hs, hd, hw, hr, he⟩ |
    ⟨vf, pevs, bs, hp, hs, hd, hw, hr, he⟩
  · obtain ⟨_, hall⟩ := pollLoop_error svc fuel v 0 e pevs hp
    obtain ⟨hdl, hwr⟩ := pollEvs_free pevs hall
    subst he
    exact ⟨hr, by simp [downloadFree_append, hdf, hdl],
           by simp [writeFree_append, hwf, hwr]⟩
  · obtain ⟨_, _, hall⟩ := pollLoop_ok svc fuel v 0 vf pevs hp
    obtain ⟨hdl, hwr⟩ := pollEvs_free pevs hall
    subst he
    exact ⟨hr, by simp [downloadFree_append, hdf, hdl],
           by simp [writeFree_append, hwf, hwr]⟩
  · obtain ⟨_, hup, _⟩ := pollLoop_ok svc fuel v 0 vf pevs hp
    have hcomp : lastStatus evs = some "completed" := by
      subst he
      simp only [lastStatus, updLast_append, hl, hup, hs]
      rfl
    rw [hcomp] at hfail
    exact absurd hfail (by decide)
  · obtain ⟨_, hup, _⟩ := pollLoop_ok svc fuel v 0 vf pevs hp
    have hcomp : lastStatus evs = some "completed" := by
      subst he
      simp only [lastStatus, updLast_append, hl, hup, hs]
      rfl
    rw [hcomp] at hfail
    exact absurd hfail (by decide)
  · obtain ⟨_, hup, _⟩ := pollLoop_ok svc fuel v 0 vf pevs hp
    have hcomp : lastStatus evs = some "completed" := by
      subst he
      simp only [lastStatus, updLast_append, hl, hup, hs]
      rfl
    rw [hcomp] at hfail
    exact absurd hfail (by decide)

/-- C3: when the job reaches terminal status `failed` or `cancelled` (the
last status observed in the trace), both run functions return the absence
marker, issue no download call and write no file. -/
theorem failed_or_cancelled_runs (svc : Service)
    (prompt size image_file : String) (seconds fuel : Nat) :
    (∀ r evs, text_to_video_sora2 svc prompt size seconds fuel = some (r, evs) →
      (lastStatus evs = some "failed" ∨ lastStatus evs = some "cancelled") →
      r = GenerationResult.noResult ∧ downloadFree evs = true ∧ writeFree evs = true) ∧
    (∀ r evs, image_to_video_sora2 svc prompt image_file size seconds fuel = some (r, evs) →
      (lastStatus evs = some "failed" ∨ lastStatus evs = some "cancelled") →
      r = GenerationResult.noResult ∧ downloadFree evs = true ∧ writeFree evs = true) := by
  constructor
  · intro r evs h hfail
    unfold text_to_video_sora2 at h
    cases hc : svc.create with
    | error e =>
      rw [hc] at h
      simp only [Option.some.injEq, Prod.mk.injEq] at h
      rw [← h.2] at hfail
      simp [lastStatus, updLast] at hfail
    | ok v =>
      rw [hc] at h
      exact finishRun_failed_cancelled svc v fuel _ r evs h
        (by simp [updLast]) (by simp [downloadFree, isDownloadCall])
        (by simp [writeFree, isFileWrite]) hfail
  · intro r evs h hfail
    unfold image_to_video_sora2 at h
    cases ho : svc.openImage image_file with
    | error e =>
      rw [ho] at h
      simp only [Option.some.injEq, Prod.mk.injEq] at h
      rw [← h.2] at hfail
      simp [lastStatus, updLast] at hfail
    | ok u =>
      rw [ho] at h
      cases hc : svc.create with
      | error e =>
        rw [hc] at h
        simp only [Option.some.injEq, Prod.mk.injEq] at h
        rw [← h.2] at hfail
        simp [lastStatus, updLast] at hfail
      | ok v =>
        rw [hc] at h
        exact finishRun_failed_cancelled svc v fuel _ r evs h
          (by simp [updLast]) (by simp [downloadFree, isDownloadCall])
          (by simp [writeFree, isFileWrite]) hfail

/-- Witness for C3 at a concrete scripted service that reports `failed`. -/
theorem failed_or_cancelled_runs_witness :
    GenerationResult.noResult = GenerationResult.noResult ∧
      downloadFree [Ev.createCall ⟨"sora-2", "p", "1280x720", 8, none⟩,
        Ev.statusObserved "failed"] = true ∧
      writeFree [Ev.createCall ⟨"sora-2", "p", "1280x720", 8, none⟩,
        Ev.statusObserved "failed"] = true :=
  (failed_or_cancelled_runs (scriptSvc (fun _ => "failed") ⟨2025, 3, 15, 14, 30, 22⟩)
      "p" "1280x720" "img.png" 8 0).1
    GenerationResult.noResult
    [Ev.createCall ⟨"sora-2", "p", "1280x720", 8, none⟩, Ev.statusObserved "failed"]
    (by decide) (Or.inl (by decide))

/-- A write-free trace admits no decomposition around a file-write event. -/
theorem writeFree_no_write (evs : List Ev) (hw : writeFree evs = true)
    (A : List Ev) (p : String) (b : List Nat) (B : List Ev)
    (h : evs = A ++ Ev.fileWrite p b :: B) : False := by
  subst h
  simp [writeFree, List.all_append, isFileWrite] at hw

/-- In a trace consisting of a write-free part followed by one file write,
the only decomposition around a file write is at that final event. -/
theorem unique_write_decomp (xs : List Ev) (p : String) (b : List Nat) :
    writeFree xs = true →
    ∀ A q c B, xs ++ [Ev.fileWrite p b] = A ++ Ev.fileWrite q c :: B →
      A = xs ∧ q = p ∧ c = b ∧ B = [] := by
  induction xs with
  | nil =>
    intro _ A q c B h
    cases A with
    | nil =>
      simp only [List.nil_append, List.cons.injEq, Ev.fileWrite.injEq] at h
      exact ⟨rfl, h.1.1.symm, h.1.2.symm, h.2.symm⟩
    | cons a A2 => simp at h
  | cons x xs ih =>
    intro hw A q c B h
    have hx : isFileWrite x = false ∧ writeFree xs = true := by
      simp only [writeFree, List.all_cons, Bool.and_eq_true, Bool.not_eq_true'] at hw
      exact ⟨hw.1, hw.2⟩
    cases A with
    | nil =>
      simp only [List.nil_append, List.cons_append, List.cons.injEq] at h
      rw [h.1] at hx
      simp [isFileWrite] at hx
    | cons a A2 =>
      simp only [List.cons_append, List.cons.injEq] at h
      obtain ⟨h1, h2⟩ := h
      obtain ⟨g1, g2, g3, g4⟩ := ih hx.2 A2 q c B h2
      exact ⟨by rw [h1, g1], g2, g3, g4⟩

/-- Any file write in a `finishRun` trace happens strictly after the last
status observation, which is `completed`. -/
theorem finishRun_write_after_completed (svc : Service) (v : Video) (fuel : Nat)
    (pre : List Ev) (r : GenerationResult) (evs : List Ev)
    (h : finishRun svc v fuel pre = some (r, evs))
    (hl : updLast none pre = some v.status)
    (hwf : writeFree pre = true) :
    ∀ A p b B, evs = A ++ Ev.fileWrite p b :: B → lastStatus A = some "completed" := by
  intro A p b B hAB
  rcases finishRun_cases svc v fuel pre r evs h with
    ⟨e, pevs, hp, hr, he⟩ | ⟨vf, pevs, hp, hs, hr, he⟩ |
    ⟨vf, pevs, e, hp, hs, hd, hr, he⟩ | ⟨vf, pevs, bs, e, hp, hs, hd, hw, hr, he⟩ |
    ⟨vf, pevs, bs, hp, hs, hd, hw, hr, he⟩
  · obtain ⟨_, hall⟩ := pollLoop_error svc fuel v 0 e pevs hp
    obtain ⟨_, hwr⟩ := pollEvs_free pevs hall
    exact (writeFree_no_write evs (by rw [he, writeFree_append, hwf, hwr]; rfl)
      A p b B hAB).elim
  · obtain ⟨_, _, hall⟩ := pollLoop_ok svc fuel v 0 vf pevs hp
    obtain ⟨_, hwr⟩ := pollEvs_free pevs hall
    exact (writeFree_no_write evs (by rw [he, writeFree_append, hwf, hwr]; rfl)
      A p b B hAB).elim
  · obtain ⟨_, _, hall⟩ := pollLoop_ok svc fuel v 0 vf pevs hp
    obtain ⟨_, hwr⟩ := pollEvs_free pevs hall
    refine (writeFree_no_write evs ?_ A p b B hAB).elim
    simp only [he, writeFree_append, hwf, hwr, Bool.true_and]
    rfl
  · obtain ⟨_, _, hall⟩ := pollLoop_ok svc fuel v 0 vf pevs hp
    obtain ⟨_, hwr⟩ := pollEvs_free pevs hall
    refine (writeFree_no_write evs ?_ A p b B hAB).elim
    simp only [he, writeFree_append, hwf, hwr, Bool.true_and]
    rfl
  · obtain ⟨_, hup, hall⟩ := pollLoop_ok svc fuel v 0 vf pevs hp
    obtain ⟨_, hwr⟩ := pollEvs_free pevs hall
    have hx : evs = (pre ++ pevs ++ [Ev.downloadCall vf.id "video"]) ++
        [Ev.fileWrite (outPath svc.now) bs] := by
      rw [he]
      simp [List.append_assoc]
    have hfx : writeFree (pre ++ pevs ++ [Ev.downloadCall vf.id "video"]) = true := by
      simp only [writeFree_append, hwf, hwr, Bool.true_and]
      rfl
    obtain ⟨hA, _, _, _⟩ :=
      unique_write_decomp (pre ++ pevs ++ [Ev.downloadCall vf.id "video"])
        (outPath svc.now) bs hfx A p b B (hx.symm.trans hAB)
    rw [hA]
    simp only [lastStatus, updLast_append, hl, hup]
    simp [updLast, hs]

/-- C5: in every execution of either run function, whenever the trace
decomposes around a file-write event, the last status observed before that
write is `completed`: no reachable state writes the output file while the
last observed status is non-terminal, `failed` or `cancelled`. -/
theorem write_only_after_completed (svc : Service)
    (prompt size image_file : String) (seconds fuel : Nat) :
    (∀ r evs, text_to_video_sora2 svc prompt size seconds fuel = some (r, evs) →
      ∀ A p b B, evs = A ++ Ev.fileWrite p b :: B →
        lastStatus A = some "completed") ∧
    (∀ r evs, image_to_video_sora2 svc prompt image_file size seconds fuel = some (r, evs) →
      ∀ A p b B, evs = A ++ Ev.fileWrite p b :: B →
        lastStatus A = some "completed") := by
  constructor
  · intro r evs h
    unfold text_to_video_sora2 at h
    cases hc : svc.create with
    | error e =>
      rw [hc] at h
      simp only [Option.some.injEq, Prod.mk.injEq] at h
      intro A p b B hAB
      exact (writeFree_no_write
        [Ev.createCall ⟨"sora-2", prompt, size, seconds, none⟩] rfl
        A p b B (h.2.trans hAB)).elim
    | ok v =>
      rw [hc] at h
      exact finishRun_write_after_completed svc v fuel _ r evs h
        (by simp [updLast]) (by simp [writeFree, isFileWrite])
  · intro r evs h
    unfold image_to_video_sora2 at h
    cases ho : svc.openImage image_file with
    | error e =>
      rw [ho] at h
      simp only [Option.some.injEq, Prod.mk.injEq] at h
      intro A p b B hAB
      exact (writeFree_no_write ([] : List Ev) rfl A p b B (h.2.trans hAB)).elim
    | ok u =>
      rw [ho] at h
      cases hc : svc.create with
      | error e =>
        rw [hc] at h
        simp only [Option.some.injEq, Prod.mk.injEq] at h
        intro A p b B hAB
        exact (writeFree_no_write
          [Ev.fileOpen image_file,
           Ev.createCall ⟨"sora-2", prompt, size, seconds, some image_file⟩,
           Ev.fileClose image_file] rfl A p b B (h.2.trans hAB)).elim
      | ok v =>
        rw [hc] at h
        exact finishRun_write_after_completed svc v fuel _ r evs h
          (by simp [updLast]) (by simp [writeFree, isFileWrite])

/-- Witness for C5 on a run that completes on first poll and writes once. -/
theorem write_only_after_completed_witness :
    lastStatus [Ev.createCall ⟨"sora-2", "p", "1280x720", 8, none⟩,
      Ev.statusObserved "completed", Ev.downloadCall "vid_1" "video"] =
      some "completed" :=
  (write_only_after_completed (scriptSvc (fun _ => "completed") ⟨2025, 3, 15, 14, 30, 22⟩)
      "p" "1280x720" "img.png" 8 0).1
    (GenerationResult.path "videos/sora2_video_15Mar2025_143022.mp4")
    [Ev.createCall ⟨"sora-2", "p", "1280x720", 8, none⟩,
     Ev.statusObserved "completed",
     Ev.downloadCall "vid_1" "video",
     Ev.fileWrite "videos/sora2_video_15Mar2025_143022.mp4" [70, 65, 75, 69]]
    (by decide)
    [Ev.createCall ⟨"sora-2", "p", "1280x720", 8, none⟩,
     Ev.statusObserved "completed", Ev.downloadCall "vid_1" "video"]
    "videos/sora2_video_15Mar2025_143022.mp4" [70, 65, 75, 69] [] (by decide)

/-- Poll-loop events are not file opens or closes. -/
theorem pollEvs_noOpenClose (evs : List Ev) (h : evs.all isPollEv = true) :
    evs.all (fun e => !isOpenOrClose e) = true := by
  simp only [List.all_eq_true] at *
  intro e he
  have := (isPollEv_not_other e (h e he)).2.2
  simp [this]

/-- C7: every completed image-to-video run either stops before opening the
image (the open itself raised), or its trace starts with open, create,
close — the file is closed as soon as the create call finishes, whether it
returned or raised — and no further open or close occurs, in particular
none during polling. -/
theorem image_open_scoped (svc : Service) (prompt image_file size : String)
    (seconds fuel : Nat) :
    ∀ r evs, image_to_video_sora2 svc prompt image_file size seconds fuel =
        some (r, evs) →
      evs = [] ∨
      ∃ rest, evs = Ev.fileOpen image_file ::
          Ev.createCall ⟨"sora-2", prompt, size, seconds, some image_file⟩ ::
          Ev.fileClose image_file :: rest ∧
        rest.all (fun e => !isOpenOrClose e) = true := by
  intro r evs h
  unfold image_to_video_sora2 at h
  cases ho : svc.openImage image_file with
  | error e =>
    rw [ho] at h
    simp only [Option.some.injEq, Prod.mk.injEq] at h
    exact Or.inl h.2.symm
  | ok u =>
    rw [ho] at h
    cases hc : svc.create with
    | error e =>
      rw [hc] at h
      simp only [Option.some.injEq, Prod.mk.injEq] at h
      exact Or.inr ⟨[], h.2.symm, rfl⟩
    | ok v =>
      rw [hc] at h
      rcases finishRun_cases svc v fuel _ r evs h with
        ⟨e, pevs, hp, hr, he⟩ | ⟨vf, pevs, hp, hs, hr, he⟩ |
        ⟨vf, pevs, e, hp, hs, hd, hr, he⟩ | ⟨vf, pevs, bs, e, hp, hs, hd, hw, hr, he⟩ |
        ⟨vf, pevs, bs, hp, hs, hd, hw, hr, he⟩
      · obtain ⟨_, hall⟩ := pollLoop_error svc fuel v 0 e pevs hp
        refine Or.inr ⟨Ev.statusObserved v.status :: pevs, by rw [he]; simp, ?_⟩
        simp only [List.all_cons, pollEvs_noOpenClose pevs hall, Bool.and_true]
        rfl
      · obtain ⟨_, _, hall⟩ := pollLoop_ok svc fuel v 0 vf pevs hp
        refine Or.inr ⟨Ev.statusObserved v.status :: pevs, by rw [he]; simp, ?_⟩
        simp only [List.all_cons, pollEvs_noOpenClose pevs hall, Bool.and_true]
        rfl
      · obtain ⟨_, _, hall⟩ := pollLoop_ok svc fuel v 0 vf pevs hp
        refine Or.inr ⟨Ev.statusObserved v.status ::
          (pevs ++ [Ev.downloadCall vf.id "video"]), by rw [he]; simp, ?_⟩
        simp only [List.all_cons, List.all_append,
          pollEvs_noOpenClose pevs hall, Bool.true_and, Bool.and_true]
        rfl
      · obtain ⟨_, _, hall⟩ := pollLoop_ok svc fuel v 0 vf pevs hp
        refine Or.inr ⟨Ev.statusObserved v.status ::
          (pevs ++ [Ev.downloadCall vf.id "video"]), by rw [he]; simp, ?_⟩
        simp only [List.all_cons, List.all_append,
          pollEvs_noOpenClose pevs hall, Bool.true_and, Bool.and_true]
        rfl
      · obtain ⟨_, _, hall⟩ := pollLoop_ok svc fuel v 0 vf pevs hp
        refine Or.inr ⟨Ev.statusObserved v.status ::
          (pevs ++ [Ev.downloadCall vf.id "video",
            Ev.fileWrite (outPath svc.now) bs]), by rw [he]; simp, ?_⟩
        simp only [List.all_cons, List.all_append,
          pollEvs_noOpenClose pevs hall, Bool.true_and, Bool.and_true]
        rfl

/-- Witness for C7 on a run whose create call raises: the image is still
closed right after the create call. -/
theorem image_open_scoped_witness :
    [Ev.fileOpen "img.png",
     Ev.createCall ⟨"sora-2", "p", "1280x720", 8, some "img.png"⟩,
     Ev.fileClose "img.png"] = ([] : List Ev) ∨
    ∃ rest, [Ev.fileOpen "img.png",
        Ev.createCall ⟨"sora-2", "p", "1280x720", 8, some "img.png"⟩,
        Ev.fileClose "img.png"] = Ev.fileOpen "img.png" ::
        Ev.createCall ⟨"sora-2", "p", "1280x720", 8, some "img.png"⟩ ::
        Ev.fileClose "img.png" :: rest ∧
      rest.all (fun e => !isOpenOrClose e) = true :=
  image_open_scoped svcCreateFails "p" "img.png" "1280x720" 8 0
    GenerationResult.noResult
    [Ev.fileOpen "img.png",
     Ev.createCall ⟨"sora-2", "p", "1280x720", 8, some "img.png"⟩,
     Ev.fileClose "img.png"] (by decide)

theorem scriptSvc_create (s : Nat → String) (d : DateTime) :
    (scriptSvc s d).create = Except.ok ⟨"vid_1", s 0⟩ := rfl

theorem scriptSvc_retrieve (s : Nat → String) (d : DateTime) (x : String) (k : Nat) :
    (scriptSvc s d).retrieve x k = Except.ok ⟨"vid_1", s (k + 1)⟩ := rfl

theorem scriptSvc_download (s : Nat → String) (d : DateTime) (x y : String) :
    (scriptSvc s d).download x y = Except.ok [70, 65, 75, 69] := rfl

theorem scriptSvc_writeFile (s : Nat → String) (d : DateTime) (x : String)
    (b : List Nat) : (scriptSvc s d).writeFile x b = Except.ok () := rfl

theorem scriptSvc_now (s : Nat → String) (d : DateTime) :
    (scriptSvc s d).now = d := rfl

/-- One iteration of the poll loop against the scripted service. -/
theorem pollLoop_script_step (s : Nat → String) (d : DateTime) (k f : Nat)
    (h0 : terminalStatus (s k) = false) :
    pollLoop (scriptSvc s d) (f + 1) ⟨"vid_1", s k⟩ k =
      (pollLoop (scriptSvc s d) f ⟨"vid_1", s (k + 1)⟩ (k + 1)).map
        (fun p => (p.1, Ev.sleepEv 10 :: Ev.retrieveCall "vid_1" ::
          Ev.statusObserved (s (k + 1)) :: p.2)) := by
  cases hres : pollLoop (scriptSvc s d) f ⟨"vid_1", s (k + 1)⟩ (k + 1) with
  | none => simp [pollLoop, h0, scriptSvc_retrieve, hres]
  | some p =>
    obtain ⟨res, evs⟩ := p
    simp [pollLoop, h0, scriptSvc_retrieve, hres]

/-- Against the status script `s`, if the `N` statuses after position `k`
are non-terminal and position `k + N` is terminal, the poll loop stops at
exactly that status, observing `N` further statuses and issuing no
download. -/
theorem pollLoop_script (s : Nat → String) (d : DateTime) (N : Nat) :
    ∀ (k fuel : Nat), N ≤ fuel →
      (∀ i, i < N → terminalStatus (s (k + i)) = false) →
      terminalStatus (s (k + N)) = true →
      ∃ evs, pollLoop (scriptSvc s d) fuel ⟨"vid_1", s k⟩ k =
          some (Except.ok ⟨"vid_1", s (k + N)⟩, evs) ∧
        statusCount evs = N ∧ downloadFree evs = true := by
  induction N with
  | zero =>
    intro k fuel _ _ hterm
    refine ⟨[], ?_, rfl, rfl⟩
    have ht : terminalStatus (s k) = true := by simpa using hterm
    cases fuel with
    | zero => simp [pollLoop, ht]
    | succ f => simp [pollLoop, ht]
  | succ N ih =>
    intro k fuel hf hnon hterm
    have h0 : terminalStatus (s k) = false := by
      simpa using hnon 0 (Nat.succ_pos N)
    cases fuel with
    | zero => exact absurd hf (by omega)
    | succ f =>
      have hnon2 : ∀ i, i < N → terminalStatus (s ((k + 1) + i)) = false := by
        intro i hi
        have hx := hnon (i + 1) (by omega)
        have : k + (i + 1) = (k + 1) + i := by omega
        rw [this] at hx
        exact hx
      have hterm2 : terminalStatus (s ((k + 1) + N)) = true := by
        have : (k + 1) + N = k + (N + 1) := by omega
        rw [this]
        exact hterm
      obtain ⟨evs, hpl, hcount, hdf⟩ := ih (k + 1) f (by omega) hnon2 hterm2
      refine ⟨Ev.sleepEv 10 :: Ev.retrieveCall "vid_1" ::
        Ev.statusObserved (s (k + 1)) :: evs, ?_, ?_, ?_⟩
      · rw [pollLoop_script_step s d k f h0, hpl]
        have : (k + 1) + N = k + (N + 1) := by omega
        rw [this]
        rfl
      · have hc : statusCount (Ev.sleepEv 10 :: Ev.retrieveCall "vid_1" ::
            Ev.statusObserved (s (k + 1)) :: evs) = statusCount evs + 1 := by
          simp [statusCount, List.filter_cons, isStatusObserved]
        rw [hc, hcount]
      · simpa [downloadFree, List.all_cons, isDownloadCall] using hdf

/-- C2: against a scripted service whose status sequence is non-terminal
exactly `N` times and then `completed`, the text-to-video run terminates
with fuel `N`, and its trace splits as a download-free part containing
exactly `N + 1` status fetches followed by the download call. -/
theorem polling_fetches_n_plus_one (s : Nat → String) (d : DateTime)
    (prompt size : String) (seconds N : Nat)
    (hnon : ∀ i, i < N → terminalStatus (s i) = false)
    (hcompl : s N = "completed") :
    ∃ r evs A idv B, text_to_video_sora2 (scriptSvc s d) prompt size seconds N =
        some (r, evs) ∧
      evs = A ++ Ev.downloadCall idv "video" :: B ∧
      statusCount A = N + 1 ∧ downloadFree A = true := by
  have hterm : terminalStatus (s (0 + N)) = true := by
    rw [Nat.zero_add, hcompl]
    rfl
  obtain ⟨pevs, hpl, hcount, hdfree⟩ :=
    pollLoop_script s d N 0 N le_rfl
      (by intro i hi; rw [Nat.zero_add]; exact hnon i hi) hterm
  rw [Nat.zero_add] at hpl
  refine ⟨GenerationResult.path (outPath d),
    [Ev.createCall ⟨"sora-2", prompt, size, seconds, none⟩,
      Ev.statusObserved (s 0)] ++ pevs ++
      [Ev.downloadCall "vid_1" "video",
       Ev.fileWrite (outPath d) [70, 65, 75, 69]],
    [Ev.createCall ⟨"sora-2", prompt, size, seconds, none⟩,
      Ev.statusObserved (s 0)] ++ pevs,
    "vid_1", [Ev.fileWrite (outPath d) [70, 65, 75, 69]], ?_, ?_, ?_, ?_⟩
  · unfold text_to_video_sora2 finishRun
    simp only [scriptSvc_create]
    rw [hpl]
    simp [hcompl, scriptSvc_download, scriptSvc_writeFile, scriptSvc_now]
  · simp [List.append_assoc]
  · have h2 : statusCount ([Ev.createCall ⟨"sora-2", prompt, size, seconds, none⟩,
        Ev.statusObserved (s 0)] ++ pevs) =
        1 + statusCount pevs := by
      simp [statusCount, List.filter_append, List.filter_cons, isStatusObserved]
      omega
    rw [h2, hcount]
    omega
  · simp only [downloadFree_append, hdfree, Bool.and_true]
    rfl

/-- Witness for C2 with the concrete script queued, queued, completed
(`N = 2`). -/
theorem polling_fetches_n_plus_one_witness :
    ∃ r evs A idv B, text_to_video_sora2
        (scriptSvc (fun n => if n < 2 then "queued" else "completed")
          ⟨2025, 3, 15, 14, 30, 22⟩) "p" "1280x720" 8 2 =
        some (r, evs) ∧
      evs = A ++ Ev.downloadCall idv "video" :: B ∧
      statusCount A = 2 + 1 ∧ downloadFree A = true :=
  polling_fetches_n_plus_one (fun n => if n < 2 then "queued" else "completed")
    ⟨2025, 3, 15, 14, 30, 22⟩ "p" "1280x720" 8 2 (by decide) (by decide)

/-- C4: when the job completes and the scripted download and write succeed,
the text-to-video run requests content with variant `"video"`, writes
exactly the downloaded bytes to
`<VIDEO_DIR>/sora2_video_<strftime d%b%Y_%H%M%S>.mp4`, and returns that
path. -/
theorem completed_downloads_video_and_writes (svc : Service)
    (prompt size : String) (seconds fuel : Nat) (bs : List Nat)
    (hdl : ∀ idv, svc.download idv "video" = Except.ok bs)
    (hwr : ∀ p b, svc.writeFile p b = Except.ok ())
    (r : GenerationResult) (evs : List Ev)
    (h : text_to_video_sora2 svc prompt size seconds fuel = some (r, evs))
    (hlast : lastStatus evs = some "completed") :
    r = GenerationResult.path (VIDEO_DIR ++ "/" ++
        (("sora2_video_" ++ fmtTimestamp svc.now) ++ ".mp4")) ∧
    (∃ idv, Ev.downloadCall idv "video" ∈ evs) ∧
    Ev.fileWrite (VIDEO_DIR ++ "/" ++
        (("sora2_video_" ++ fmtTimestamp svc.now) ++ ".mp4")) bs ∈ evs := by
  unfold text_to_video_sora2 at h
  cases hc : svc.create with
  | error e =>
    rw [hc] at h
    simp only [Option.some.injEq, Prod.mk.injEq] at h
    rw [← h.2] at hlast
    simp [lastStatus, updLast] at hlast
  | ok v =>
    rw [hc] at h
    rcases finishRun_cases svc v fuel _ r evs h with
      ⟨e, pevs, hp, hr, he⟩ | ⟨vf, pevs, hp, hs, hr, he⟩ |
      ⟨vf, pevs, e, hp, hs, hd, hr, he⟩ | ⟨vf, pevs, bs2, e, hp, hs, hd, hw, hr, he⟩ |
      ⟨vf, pevs, bs2, hp, hs, hd, hw, hr, he⟩
    · obtain ⟨⟨t, hup, hnt⟩, _⟩ := pollLoop_error svc fuel v 0 e pevs hp
      rw [he] at hlast
      simp only [lastStatus, updLast_append] at hlast
      simp only [updLast, hup] at hlast
      rw [Option.some.inj hlast] at hnt
      exact absurd hnt (by decide)
    · obtain ⟨_, hup, _⟩ := pollLoop_ok svc fuel v 0 vf pevs hp
      rw [he] at hlast
      simp only [lastStatus, updLast_append] at hlast
      simp only [updLast, hup] at hlast
      exact absurd (Option.some.inj hlast) hs
    · rw [hdl vf.id] at hd
      exact absurd hd (by simp)
    · rw [hwr (outPath svc.now) bs2] at hw
      exact absurd hw (by simp)
    · rw [hdl vf.id] at hd
      have hbs : bs2 = bs := (Except.ok.inj hd).symm
      subst hbs
      refine ⟨hr, ⟨vf.id, ?_⟩, ?_⟩
      · rw [he]
        simp
      · rw [he]
        simp [outPath]

/-- Witness for C4 on a concrete service completing on first poll. -/
theorem completed_downloads_video_and_writes_witness :
    GenerationResult.path "videos/sora2_video_15Mar2025_143022.mp4" =
      GenerationResult.path (VIDEO_DIR ++ "/" ++
        (("sora2_video_" ++ fmtTimestamp
          (scriptSvc (fun _ => "completed") ⟨2025, 3, 15, 14, 30, 22⟩).now) ++ ".mp4")) ∧
    (∃ idv, Ev.downloadCall idv "video" ∈
      [Ev.createCall ⟨"sora-2", "p", "1280x720", 8, none⟩,
       Ev.statusObserved "completed",
       Ev.downloadCall "vid_1" "video",
       Ev.fileWrite "videos/sora2_video_15Mar2025_143022.mp4" [70, 65, 75, 69]]) ∧
    Ev.fileWrite (VIDEO_DIR ++ "/" ++
        (("sora2_video_" ++ fmtTimestamp
          (scriptSvc (fun _ => "completed") ⟨2025, 3, 15, 14, 30, 22⟩).now) ++ ".mp4"))
      [70, 65, 75, 69] ∈
      [Ev.createCall ⟨"sora-2", "p", "1280x720", 8, none⟩,
       Ev.statusObserved "completed",
       Ev.downloadCall "vid_1" "video",
       Ev.fileWrite "videos/sora2_video_15Mar2025_143022.mp4" [70, 65, 75, 69]] :=
  completed_downloads_video_and_writes
    (scriptSvc (fun _ => "completed") ⟨2025, 3, 15, 14, 30, 22⟩)
    "p" "1280x720" 8 0 [70, 65, 75, 69] (fun _ => rfl) (fun _ _ => rfl)
    (GenerationResult.path "videos/sora2_video_15Mar2025_143022.mp4")
    [Ev.createCall ⟨"sora-2", "p", "1280x720", 8, none⟩,
     Ev.statusObserved "completed",
     Ev.downloadCall "vid_1" "video",
     Ev.fileWrite "videos/sora2_video_15Mar2025_143022.mp4" [70, 65, 75, 69]]
    (by decide) (by decide)

/-- Lemma: `finishRun` does not inspect the prefix trace: it is the `pre := []`
run with the prefix prepended. -/
theorem finishRun_shape (svc : Service) (v : Video) (fuel : Nat) (pre : List Ev) :
    finishRun svc v fuel pre =
      (finishRun svc v fuel []).map (fun p => (p.1, pre ++ p.2)) := by
  unfold finishRun
  cases hp : pollLoop svc fuel v 0 with
  | none => rfl
  | some p =>
    obtain ⟨res, pevs⟩ := p
    cases res with
    | error e => simp
    | ok vf =>
      simp only []
      by_cases hc : vf.status = "completed"
      · cases hd : svc.download vf.id "video" with
        | error e => simp [hc, hd, List.append_assoc]
        | ok bs =>
          cases hw : svc.writeFile (outPath svc.now) bs with
          | error e => simp [hc, hd, hw, List.append_assoc]
          | ok u => simp [hc, hd, hw, List.append_assoc]
      · simp [hc]

/-- C10: under the same scripted service responses, once the image open
succeeds the image-to-video run and the text-to-video run return the same
result, and their traces agree once the create call and the image
open/close around it are erased: identical polling, identical download
call with variant `"video"`, identical output path and write. -/
theorem text_image_equiv_after_create (svc : Service)
    (prompt image_file size : String) (seconds fuel : Nat)
    (ho : svc.openImage image_file = Except.ok ()) :
    (image_to_video_sora2 svc prompt image_file size seconds fuel).map Prod.fst =
      (text_to_video_sora2 svc prompt size seconds fuel).map Prod.fst ∧
    (image_to_video_sora2 svc prompt image_file size seconds fuel).map
        (fun p => eraseCreate p.2) =
      (text_to_video_sora2 svc prompt size seconds fuel).map
        (fun p => eraseCreate p.2) := by
  unfold image_to_video_sora2 text_to_video_sora2
  rw [ho]
  cases hc : svc.create with
  | error e => simp [eraseCreate, isPostCreateEv]
  | ok v =>
    dsimp only
    rw [finishRun_shape svc v fuel
      [Ev.fileOpen image_file,
       Ev.createCall ⟨"sora-2", prompt, size, seconds, some image_file⟩,
       Ev.fileClose image_file, Ev.statusObserved v.status],
      finishRun_shape svc v fuel
      [Ev.createCall ⟨"sora-2", prompt, size, seconds, none⟩,
       Ev.statusObserved v.status]]
    cases hf : finishRun svc v fuel [] with
    | none => simp
    | some p =>
      obtain ⟨r0, tail⟩ := p
      constructor
      · simp
      · simp [eraseCreate, List.filter_append, isPostCreateEv]

/-- Witness for C10 at a concrete scripted service. -/
theorem text_image_equiv_after_create_witness :
    (image_to_video_sora2
        (scriptSvc (fun _ => "completed") ⟨2025, 3, 15, 14, 30, 22⟩)
        "p" "img.png" "1280x720" 8 0).map Prod.fst =
      (text_to_video_sora2
        (scriptSvc (fun _ => "completed") ⟨2025, 3, 15, 14, 30, 22⟩)
        "p" "1280x720" 8 0).map Prod.fst ∧
    (image_to_video_sora2
        (scriptSvc (fun _ => "completed") ⟨2025, 3, 15, 14, 30, 22⟩)
        "p" "img.png" "1280x720" 8 0).map (fun p => eraseCreate p.2) =
      (text_to_video_sora2
        (scriptSvc (fun _ => "completed") ⟨2025, 3, 15, 14, 30, 22⟩)
        "p" "1280x720" 8 0).map (fun p => eraseCreate p.2) :=
  text_image_equiv_after_create
    (scriptSvc (fun _ => "completed") ⟨2025, 3, 15, 14, 30, 22⟩)
    "p" "img.png" "1280x720" 8 0 rfl

theorem digitChar_injOn : ∀ a < 10, ∀ b < 10,
    Nat.digitChar a = Nat.digitChar b → a = b := by decide

theorem pad2_inj (a b : Nat) (ha : a < 100) (hb : b < 100)
    (h : pad2 a = pad2 b) : a = b := by
  simp only [pad2, List.cons.injEq, and_true] at h
  have h1 := digitChar_injOn (a / 10) (by omega) (b / 10) (by omega) h.1
  have h2 := digitChar_injOn (a % 10) (by omega) (b % 10) (by omega) h.2
  omega

theorem pad4_inj (a b : Nat) (ha : a < 10000) (hb : b < 10000)
    (h : pad4 a = pad4 b) : a = b := by
  simp only [pad4, List.cons.injEq, and_true] at h
  have h1 := digitChar_injOn (a / 1000) (by omega) (b / 1000) (by omega) h.1
  have h2 := digitChar_injOn (a / 100 % 10) (by omega) (b / 100 % 10) (by omega) h.2.1
  have h3 := digitChar_injOn (a / 10 % 10) (by omega) (b / 10 % 10) (by omega) h.2.2.1
  have h4 := digitChar_injOn (a % 10) (by omega) (b % 10) (by omega) h.2.2.2
  omega

theorem monthAbbrev_injOn : ∀ a < 13, ∀ b < 13, 1 ≤ a → 1 ≤ b →
    monthAbbrev a = monthAbbrev b → a = b := by decide

theorem monthAbbrev_len : ∀ m < 13, 1 ≤ m → (monthAbbrev m).length = 3 := by decide

theorem pad2_len (n : Nat) : (pad2 n).length = 2 := rfl

theorem pad4_len (n : Nat) : (pad4 n).length = 4 := rfl

/-- The `%d%b%Y_%H%M%S` format is injective on valid timestamps: every
field has fixed width, so equal strings force equal fields. -/
theorem fmtTimestamp_inj (d1 d2 : DateTime)
    (hv1 : validDateTime d1) (hv2 : validDateTime d2)
    (h : fmtTimestamp d1 = fmtTimestamp d2) : d1 = d2 := by
  obtain ⟨hy1, hy1b, hm1, hm1b, hd1, hd1b, hh1, hmi1, hs1⟩ := hv1
  obtain ⟨hy2, hy2b, hm2, hm2b, hd2, hd2b, hh2, hmi2, hs2⟩ := hv2
  unfold fmtTimestamp at h
  injection h with h
  obtain ⟨e1, h⟩ := List.append_inj h (by rw [pad2_len, pad2_len])
  obtain ⟨e2, h⟩ := List.append_inj h
    (by rw [monthAbbrev_len d1.month (by omega) hm1,
            monthAbbrev_len d2.month (by omega) hm2])
  obtain ⟨e3, h⟩ := List.append_inj h (by rw [pad4_len, pad4_len])
  obtain ⟨_, h⟩ := List.append_inj h rfl
  obtain ⟨e5, h⟩ := List.append_inj h (by rw [pad2_len, pad2_len])
  obtain ⟨e6, e7⟩ := List.append_inj h (by rw [pad2_len, pad2_len])
  have q1 := pad2_inj d1.day d2.day (by omega) (by omega) e1
  have q2 := monthAbbrev_injOn d1.month (by omega) d2.month (by omega)
    hm1 hm2 e2
  have q3 := pad4_inj d1.year d2.year (by omega) (by omega) e3
  have q5 := pad2_inj d1.hour d2.hour (by omega) (by omega) e5
  have q6 := pad2_inj d1.minute d2.minute (by omega) (by omega) e6
  have q7 := pad2_inj d1.second d2.second (by omega) (by omega) e7
  cases d1
  cases d2
  simp only [DateTime.mk.injEq]
  exact ⟨q3, q2, q1, q5, q6, q7⟩

/-- Equal output paths force equal formatted timestamps. -/
theorem outPath_inj (d1 d2 : DateTime) (h : outPath d1 = outPath d2) :
    fmtTimestamp d1 = fmtTimestamp d2 := by
  have h2 := congrArg String.data h
  simp only [outPath, VIDEO_DIR, String.data_append, List.append_assoc] at h2
  have h3 := List.append_cancel_left (List.append_cancel_left
    (List.append_cancel_left h2))
  have h4 := List.append_cancel_right h3
  exact String.ext h4

/-- A text-to-video run that returns a path returns the timestamped path. -/
theorem text_path_shape (svc : Service) (prompt size : String)
    (seconds fuel : Nat) (p : String) (evs : List Ev)
    (h : text_to_video_sora2 svc prompt size seconds fuel =
      some (GenerationResult.path p, evs)) : p = outPath svc.now := by
  unfold text_to_video_sora2 at h
  cases hc : svc.create with
  | error e =>
    rw [hc] at h
    simp at h
  | ok v =>
    rw [hc] at h
    rcases finishRun_result svc v fuel _ (GenerationResult.path p) evs h with h1 | h1
    · exact absurd h1 (by simp)
    · exact GenerationResult.path.inj h1

/-- Two sub-second instants on the same second-resolution timestamp are
less than 1000 ms apart. -/
theorem toMillis_close (d : DateTime) (ms1 ms2 : Nat)
    (h1 : ms1 < 1000) (h2 : ms2 < 1000) :
    toMillis d ms1 - toMillis d ms2 ≤ 999 ∧
      toMillis d ms2 - toMillis d ms1 ≤ 999 := by
  unfold toMillis
  omega

/-- C9: two successful text-to-video runs whose file-write instants are
more than one second (1000 ms) apart produce distinct output paths: the
timestamp format has one-second resolution and is injective on valid
timestamps. -/
theorem separated_runs_distinct_paths (svc1 svc2 : Service)
    (prompt1 prompt2 size1 size2 p1 p2 : String)
    (secs1 secs2 fuel1 fuel2 ms1 ms2 : Nat) (evs1 evs2 : List Ev)
    (h1 : text_to_video_sora2 svc1 prompt1 size1 secs1 fuel1 =
      some (GenerationResult.path p1, evs1))
    (h2 : text_to_video_sora2 svc2 prompt2 size2 secs2 fuel2 =
      some (GenerationResult.path p2, evs2))
    (hv1 : validDateTime svc1.now) (hv2 : validDateTime svc2.now)
    (hms1 : ms1 < 1000) (hms2 : ms2 < 1000)
    (hsep : 1000 < toMillis svc1.now ms1 - toMillis svc2.now ms2 ∨
            1000 < toMillis svc2.now ms2 - toMillis svc1.now ms1) :
    p1 ≠ p2 := by
  have e1 := text_path_shape svc1 prompt1 size1 secs1 fuel1 p1 evs1 h1
  have e2 := text_path_shape svc2 prompt2 size2 secs2 fuel2 p2 evs2 h2
  intro hpp
  rw [e1, e2] at hpp
  have hfmt := outPath_inj svc1.now svc2.now hpp
  have hdd := fmtTimestamp_inj svc1.now svc2.now hv1 hv2 hfmt
  rw [hdd] at hsep
  have := toMillis_close svc2.now ms1 ms2 hms1 hms2
  rcases hsep with hx | hx <;> omega

/-- Witness for C9: two runs two seconds apart give distinct paths. -/
theorem separated_runs_distinct_paths_witness :
    "videos/sora2_video_15Mar2025_143022.mp4" ≠
      "videos/sora2_video_15Mar2025_143024.mp4" :=
  separated_runs_distinct_paths
    (scriptSvc (fun _ => "completed") ⟨2025, 3, 15, 14, 30, 22⟩)
    (scriptSvc (fun _ => "completed") ⟨2025, 3, 15, 14, 30, 24⟩)
    "p" "p" "1280x720" "1280x720"
    "videos/sora2_video_15Mar2025_143022.mp4"
    "videos/sora2_video_15Mar2025_143024.mp4"
    8 8 0 0 0 0
    [Ev.createCall ⟨"sora-2", "p", "1280x720", 8, none⟩,
     Ev.statusObserved "completed",
     Ev.downloadCall "vid_1" "video",
     Ev.fileWrite "videos/sora2_video_15Mar2025_143022.mp4" [70, 65, 75, 69]]
    [Ev.createCall ⟨"sora-2", "p", "1280x720", 8, none⟩,
     Ev.statusObserved "completed",
     Ev.downloadCall "vid_1" "video",
     Ev.fileWrite "videos/sora2_video_15Mar2025_143024.mp4" [70, 65, 75, 69]]
    (by decide) (by decide)
    (by unfold validDateTime; decide) (by unfold validDateTime; decide)
    (by decide) (by decide)
    (Or.inr (by decide))
